import Mathlib

/-!
Verification of the event-registration lifecycle of the CommunityPulse backend
(`src/backend/main.py`).

The embedding models a single event together with its registration rows and
the four mutating endpoints `register_for_event` (direct registration),
`mark_interest`, `confirm_registration` and `cancel_registration`, plus the
two read endpoints `get_registration_status` and `get_event_details`.

Modelling conventions:
* timestamps (`datetime.utcnow()`, `registration_start`, `registration_end`)
  are integers (seconds); `timedelta(hours=24)` is the constant
  `buffer_time = 86400`;
* the SQLAlchemy query
  `db.query(EventRegistration).filter(event_id == e, user_id == u).first()`
  becomes `List.find?` over the event's registration rows in insertion order;
* an in-place row update becomes `updateFirst`, which rewrites the first row
  matched by the predicate and keeps every other row;
* a handler raising `HTTPException` becomes `Except.error`; the surrounding
  transaction is all-or-nothing, so an error leaves the state unchanged;
* fields of the rows that no claim observes (`id`, `registered_at`) and the
  notification side effects (which touch only the `notifications` table) are
  not modelled;
* Python's `attendees` column stores a JSON-encoded list of names; the model
  keeps the decoded `List String` directly.
-/

namespace CommunityPulse

/-- One row of the `event_registrations` table (for a fixed event):
`user_id`, `status` (one of the strings `"interested"`, `"registered"`,
`"cancelled"`), the decoded attendee-name list, and `number_of_attendees`. -/
structure Registration where
  user_id : Nat
  status : String
  attendees : List String
  number_of_attendees : Int
deriving DecidableEq

/-- The claim-relevant columns of the `events` table. -/
structure Event where
  is_approved : Bool
  registration_start : Int
  registration_end : Int
  attendees_count : Int
deriving DecidableEq

/-- One event together with its registration rows, in insertion order. -/
structure EventState where
  event : Event
  registrations : List Registration
deriving DecidableEq

/-- An `HTTPException` raised by a handler: 404 (`notFound`) or
400 (`badRequest`), with the `detail` string of the source. -/
inductive ApiError where
  | notFound (detail : String)
  | badRequest (detail : String)
deriving DecidableEq

/-- `timedelta(hours=24)` in seconds, the buffer used by
`confirm_registration`. -/
def buffer_time : Int := 24 * 60 * 60

/-- `db.query(EventRegistration).filter(event_id == e, user_id == u).first()`. -/
def findRegistration (u : Nat) (l : List Registration) : Option Registration :=
  l.find? (fun r => r.user_id == u)

/-- Rewrite the first element satisfying `p` with `f`; every other element is
kept.  This is how an in-place update of the row returned by `.first()`
acts on the row list. -/
def updateFirst (p : α → Bool) (f : α → α) : List α → List α
  | [] => []
  | x :: xs => if p x then f x :: xs else x :: updateFirst p f xs

/-- The request body of `register_for_event` and `confirm_registration`
(pydantic model `EventRegistrationCreate`), before validation. -/
structure EventRegistrationCreate where
  number_of_attendees : Int
  attendees : List String
deriving DecidableEq

/-- Python's `name.strip()` is truthy exactly when the string contains at
least one non-whitespace character. -/
def stripTruthy (name : String) : Bool :=
  name.data.any (fun c => !c.isWhitespace)

/-- The `validate_attendees` validator: `all(name.strip() for name in v)`,
i.e. every name non-blank, and at most 10 names. -/
def validate_attendees (v : List String) : Bool :=
  v.all stripTruthy && decide (v.length ≤ 10)

/-- The `validate_number_of_attendees` validator.  In pydantic, `values`
holds the already-validated fields, i.e. the fields declared *before* the
current one; the check `v != len(values["attendees"])` runs only when
`"attendees" in values`. -/
def validate_number_of_attendees (v : Int) (values_has_attendees : Bool)
    (attendees_length : Nat) : Bool :=
  !values_has_attendees || v == (attendees_length : Int)

/-- Whether a request body passes the `EventRegistrationCreate` validation:
the field constraints `number_of_attendees ≥ 1` (`Field(ge=1)`) and
`len(attendees) ≥ 1` (`min_items=1`), plus the two validators.  Pydantic
validates fields in declaration order and `number_of_attendees` is declared
*before* `attendees` (lines 231-232 of the source), so when its validator
runs, `"attendees" in values` is false: the `values_has_attendees` argument
is `false`. -/
def payloadAccepted (p : EventRegistrationCreate) : Bool :=
  decide (1 ≤ p.number_of_attendees)
    && validate_number_of_attendees p.number_of_attendees false p.attendees.length
    && decide (1 ≤ p.attendees.length)
    && validate_attendees p.attendees

/-- `POST /events/{event_id}/register` (`register_for_event`): direct
registration.  Rejects unapproved events, enforces the *unbuffered*
registration window, conflicts if *any* registration row exists for the
user (whatever its status), otherwise inserts a fresh `"registered"` row
and adds the full attendee count to the event counter. -/
def register_for_event (now : Int) (u : Nat) (p : EventRegistrationCreate)
    (s : EventState) : Except ApiError EventState :=
  if !s.event.is_approved then
    .error (.badRequest "Cannot register for an unapproved event")
  else if now < s.event.registration_start || s.event.registration_end < now then
    .error (.badRequest "Registration is not open for this event")
  else
    match findRegistration u s.registrations with
    | some _ => .error (.badRequest "You are already registered for this event")
    | none =>
        .ok { s with
          registrations := s.registrations ++
            [⟨u, "registered", p.attendees, p.number_of_attendees⟩],
          event := { s.event with
            attendees_count := s.event.attendees_count + p.number_of_attendees } }

/-- `POST /events/{event_id}/interest` (`mark_interest`).  Rejects unapproved
events; if a row exists and is `"cancelled"` it is reactivated: only the
status is set to `"interested"` and the counter incremented by 1 (the
attendee list and count of the row are left as they were); if a
non-cancelled row exists the call conflicts; otherwise a fresh
`"interested"` row with the caller's username and count 1 is inserted and
the counter incremented by 1. -/
def mark_interest (u : Nat) (username : String) (s : EventState) :
    Except ApiError EventState :=
  if !s.event.is_approved then
    .error (.badRequest "Cannot show interest in an unapproved event")
  else
    match findRegistration u s.registrations with
    | some existing =>
        if existing.status == "cancelled" then
          .ok { s with
            registrations := updateFirst (fun r => r.user_id == u)
              (fun r => { r with status := "interested" }) s.registrations,
            event := { s.event with
              attendees_count := s.event.attendees_count + 1 } }
        else
          .error (.badRequest "You are already interested or registered for this event")
    | none =>
        .ok { s with
          registrations := s.registrations ++ [⟨u, "interested", [username], 1⟩],
          event := { s.event with
            attendees_count := s.event.attendees_count + 1 } }

/-- `POST /events/{event_id}/confirm-registration` (`confirm_registration`).
No approval check.  Enforces the registration window *with* the 24-hour
buffer.  Requires an existing non-cancelled row; conflicts if it is already
`"registered"`.  On success the row becomes `"registered"` with the new
attendee list and count, and the counter changes by
(new count − previous count). -/
def confirm_registration (now : Int) (u : Nat) (p : EventRegistrationCreate)
    (s : EventState) : Except ApiError EventState :=
  if now < s.event.registration_start - buffer_time
      || s.event.registration_end + buffer_time < now then
    .error (.badRequest "Registration is not open for this event")
  else
    match findRegistration u s.registrations with
    | none => .error (.badRequest "You must first mark interest in this event")
    | some registration =>
        if registration.status == "cancelled" then
          .error (.badRequest "You must first mark interest in this event")
        else if registration.status == "registered" then
          .error (.badRequest "You are already registered for this event")
        else
          .ok { s with
            registrations := updateFirst (fun r => r.user_id == u)
              (fun r => { r with
                status := "registered",
                attendees := p.attendees,
                number_of_attendees := p.number_of_attendees }) s.registrations,
            event := { s.event with
              attendees_count := s.event.attendees_count
                - registration.number_of_attendees + p.number_of_attendees } }

/-- `POST /events/{event_id}/cancel-registration` (`cancel_registration`).
404 if no row exists or the row is already `"cancelled"`; otherwise the
counter is decreased by the row's attendee count, floored at 0, and the
row's status becomes `"cancelled"` (the row is not deleted). -/
def cancel_registration (u : Nat) (s : EventState) : Except ApiError EventState :=
  match findRegistration u s.registrations with
  | none => .error (.notFound "Registration not found")
  | some registration =>
      if registration.status == "cancelled" then
        .error (.notFound "Registration not found")
      else
        .ok { s with
          registrations := updateFirst (fun r => r.user_id == u)
            (fun r => { r with status := "cancelled" }) s.registrations,
          event := { s.event with
            attendees_count :=
              max 0 (s.event.attendees_count - registration.number_of_attendees) } }

/-- `GET /events/{event_id}/registration-status` (`get_registration_status`):
returns the status string and, when the row is present and not cancelled,
its attendee list and count; absent or cancelled rows yield
`("none", none)`. -/
def get_registration_status (u : Nat) (s : EventState) :
    String × Option (List String × Int) :=
  match findRegistration u s.registrations with
  | none => ("none", none)
  | some registration =>
      if registration.status == "cancelled" then ("none", none)
      else (registration.status, some (registration.attendees,
        registration.number_of_attendees))

/-- The `is_registered` field computed by `GET /events/{event_id}/details`
(`get_event_details`): true exactly when some registration row exists for
the pair, whatever its status. -/
def details_is_registered (u : Nat) (s : EventState) : Bool :=
  (findRegistration u s.registrations).isSome

/-- One mutating API call, with its caller and (where relevant) the current
time and the already-parsed request body. -/
inductive Op where
  | interest (u : Nat) (username : String)
  | confirm (now : Int) (u : Nat) (p : EventRegistrationCreate)
  | registerDirect (now : Int) (u : Nat) (p : EventRegistrationCreate)
  | cancel (u : Nat)
deriving DecidableEq

/-- Dispatch one call to its handler. -/
def stepOp : Op → EventState → Except ApiError EventState
  | .interest u un, s => mark_interest u un s
  | .confirm now u p, s => confirm_registration now u p s
  | .registerDirect now u p, s => register_for_event now u p s
  | .cancel u, s => cancel_registration u s

/-- The state after one call: a failed call rolls back (state unchanged). -/
def applyOp (op : Op) (s : EventState) : EventState :=
  match stepOp op s with
  | .ok s' => s'
  | .error _ => s

/-- The state after a sequence of calls. -/
def run (ops : List Op) (s : EventState) : EventState :=
  ops.foldl (fun s op => applyOp op s) s

/-- A registration counts towards the event counter when its status is
`"interested"` or `"registered"`. -/
def isActive (r : Registration) : Bool :=
  r.status == "interested" || r.status == "registered"

/-- Sum of `number_of_attendees` over the active registrations. -/
def activeSum (l : List Registration) : Int :=
  ((l.filter isActive).map (fun r => r.number_of_attendees)).sum

/-- The spec's counter invariant: `attendees_count` equals the sum of
attendee counts over active registrations. -/
def counterInvariant (s : EventState) : Prop :=
  s.event.attendees_count = activeSum s.registrations

/-- Well-formedness of a state: the counter invariant, every row's count at
least 1, and every row's status one of the three status strings the code
ever writes. -/
def wf (s : EventState) : Prop :=
  counterInvariant s
    ∧ (∀ r ∈ s.registrations, 1 ≤ r.number_of_attendees)
    ∧ (∀ r ∈ s.registrations,
        r.status = "interested" ∨ r.status = "registered" ∨ r.status = "cancelled")

/-- The side condition under which one call preserves the counter invariant:
a `mark_interest` call must not reactivate a cancelled row whose stored
count differs from 1 (the code adds 1 to the counter but keeps the stored
count), and the bodies of `confirm`/`registerDirect` calls must have passed
request validation (which guarantees `number_of_attendees ≥ 1`). -/
def goodOp (op : Op) (s : EventState) : Bool :=
  match op with
  | .interest u _ =>
      match findRegistration u s.registrations with
      | some r => !(r.status == "cancelled") || (r.number_of_attendees == 1)
      | none => true
  | .confirm _ _ p => payloadAccepted p
  | .registerDirect _ _ p => payloadAccepted p
  | .cancel _ => true

/-- `goodOp` holding at every step of a run. -/
def runGood : List Op → EventState → Bool
  | [], _ => true
  | op :: ops, s => goodOp op s && runGood ops (applyOp op s)

/-- A sample approved event: registration window `[0, 1000000]`, counter 0. -/
def approvedEvent : Event := ⟨true, 0, 1000000, 0⟩

/-- A freshly created approved event with no registrations. -/
def emptyState : EventState := ⟨approvedEvent, []⟩

/-- The call sequence markInterest, confirm with 3 attendees, cancel,
markInterest again, all by user 1, on `emptyState`. -/
def opsReactivate : List Op :=
  [.interest 1 "alice", .confirm 100 1 ⟨3, ["Ann", "Bob", "Cyd"]⟩, .cancel 1,
    .interest 1 "alice"]

/-! ### Supporting lemmas -/

theorem updateFirst_split {α : Type} {p : α → Bool} {l : List α} {r : α}
    (h : l.find? p = some r) (f : α → α) :
    ∃ l1 l2, l = l1 ++ r :: l2 ∧ updateFirst p f l = l1 ++ f r :: l2 ∧ p r = true := by
  induction l with
  | nil => simp [List.find?] at h
  | cons x xs ih =>
      cases hp : p x with
      | true =>
          rw [List.find?_cons_of_pos _ hp] at h
          obtain rfl : x = r := by injection h
          exact ⟨[], xs, rfl, by simp [updateFirst, hp], hp⟩
      | false =>
          rw [List.find?_cons_of_neg _ (by simp [hp])] at h
          obtain ⟨l1, l2, h1, h2, h3⟩ := ih h
          exact ⟨x :: l1, l2, by simp [h1], by simp [updateFirst, hp, h2], h3⟩

theorem length_updateFirst {α : Type} (p : α → Bool) (f : α → α) (l : List α) :
    (updateFirst p f l).length = l.length := by
  induction l with
  | nil => rfl
  | cons x xs ih =>
      cases hp : p x <;> simp [updateFirst, hp, ih]

theorem find?_updateFirst {α : Type} {p : α → Bool} {l : List α} {r : α}
    (h : l.find? p = some r) (f : α → α) (hf : p (f r) = true) :
    (updateFirst p f l).find? p = some (f r) := by
  induction l with
  | nil => simp [List.find?] at h
  | cons x xs ih =>
      cases hp : p x with
      | true =>
          rw [List.find?_cons_of_pos _ hp] at h
          obtain rfl : x = r := by injection h
          simp [updateFirst, hp, List.find?_cons_of_pos _ hf]
      | false =>
          rw [List.find?_cons_of_neg _ (by simp [hp])] at h
          have hu : updateFirst p f (x :: xs) = x :: updateFirst p f xs := by
            simp [updateFirst, hp]
          rw [hu, List.find?_cons_of_neg _ (by simp [hp])]
          exact ih h

theorem find?_append_of_none {α : Type} {p : α → Bool} {l : List α}
    (h : l.find? p = none) (l2 : List α) : (l ++ l2).find? p = l2.find? p := by
  induction l with
  | nil => rfl
  | cons x xs ih =>
      cases hp : p x with
      | true => rw [List.find?_cons_of_pos _ hp] at h; exact absurd h (by simp)
      | false =>
          rw [List.find?_cons_of_neg _ (by simp [hp])] at h
          rw [List.cons_append, List.find?_cons_of_neg _ (by simp [hp])]
          exact ih h

theorem activeSum_nil : activeSum [] = 0 := rfl

theorem activeSum_cons (r : Registration) (l : List Registration) :
    activeSum (r :: l) =
      (if isActive r then r.number_of_attendees else 0) + activeSum l := by
  cases h : isActive r <;> simp [activeSum, List.filter_cons, h]

theorem activeSum_append (l1 l2 : List Registration) :
    activeSum (l1 ++ l2) = activeSum l1 + activeSum l2 := by
  simp [activeSum, List.filter_append]

theorem activeSum_nonneg {l : List Registration}
    (h : ∀ r ∈ l, 1 ≤ r.number_of_attendees) : 0 ≤ activeSum l := by
  induction l with
  | nil => simp [activeSum_nil]
  | cons x xs ih =>
      rw [activeSum_cons]
      have hx := h x (by simp)
      have hxs := ih (fun r hr => h r (by simp [hr]))
      cases hact : isActive x <;> simp <;> omega

theorem payloadAccepted_one_le {p : EventRegistrationCreate}
    (h : payloadAccepted p = true) : 1 ≤ p.number_of_attendees := by
  simp only [payloadAccepted, Bool.and_eq_true, decide_eq_true_eq] at h
  exact h.1.1.1

theorem wf_mark_interest {u : Nat} {un : String} {s s' : EventState}
    (hwf : wf s) (hg : goodOp (.interest u un) s = true)
    (h : mark_interest u un s = .ok s') : wf s' := by
  obtain ⟨hinv, hpos, hst⟩ := hwf
  simp only [goodOp] at hg
  simp only [mark_interest] at h
  split at h
  · simp at h
  split at h
  case h_1 existing heq =>
    rw [heq] at hg
    split at h
    case isTrue hcanc =>
      injection h with h'
      subst h'
      simp only [beq_iff_eq] at hcanc
      simp [hcanc] at hg
      simp only [findRegistration] at heq
      obtain ⟨l1, l2, hl, hu, -⟩ :=
        updateFirst_split heq (fun r => { r with status := "interested" })
      have hactOld : isActive existing = false := by simp [isActive, hcanc]
      have hactNew : isActive { existing with status := "interested" } = true := by
        simp [isActive]
      refine ⟨?_, ?_, ?_⟩
      · show s.event.attendees_count + 1 = activeSum _
        rw [hu, activeSum_append, activeSum_cons, hactNew]
        rw [counterInvariant, hl, activeSum_append, activeSum_cons, hactOld] at hinv
        simp [hg] at hinv ⊢
        omega
      · intro r hr
        rw [hu] at hr
        rcases List.mem_append.1 hr with h1 | h2
        · exact hpos r (by rw [hl]; exact List.mem_append_left _ h1)
        · rcases List.mem_cons.1 h2 with rfl | h3
          · exact hpos existing (by rw [hl]; simp)
          · exact hpos r (by rw [hl]; simp [h3])
      · intro r hr
        rw [hu] at hr
        rcases List.mem_append.1 hr with h1 | h2
        · exact hst r (by rw [hl]; exact List.mem_append_left _ h1)
        · rcases List.mem_cons.1 h2 with rfl | h3
          · exact Or.inl rfl
          · exact hst r (by rw [hl]; simp [h3])
    case isFalse => simp at h
  case h_2 heq =>
    injection h with h'
    subst h'
    refine ⟨?_, ?_, ?_⟩
    · show s.event.attendees_count + 1 = activeSum _
      rw [activeSum_append, activeSum_cons, activeSum_nil]
      have : isActive ⟨u, "interested", [un], (1 : Int)⟩ = true := by simp [isActive]
      rw [this, counterInvariant] at *
      simp only [if_true]
      omega
    · intro r hr
      rcases List.mem_append.1 hr with h1 | h2
      · exact hpos r h1
      · simp at h2; subst h2; norm_num
    · intro r hr
      rcases List.mem_append.1 hr with h1 | h2
      · exact hst r h1
      · simp at h2; subst h2; exact Or.inl rfl

theorem wf_confirm {now : Int} {u : Nat} {p : EventRegistrationCreate}
    {s s' : EventState} (hwf : wf s) (hg : goodOp (.confirm now u p) s = true)
    (h : confirm_registration now u p s = .ok s') : wf s' := by
  obtain ⟨hinv, hpos, hst⟩ := hwf
  simp only [goodOp] at hg
  have hn := payloadAccepted_one_le hg
  simp only [confirm_registration] at h
  split at h
  · simp at h
  split at h
  case h_1 => simp at h
  case h_2 reg heq =>
    split at h
    case isTrue => simp at h
    case isFalse hc =>
      split at h
      case isTrue => simp at h
      case isFalse hr =>
        injection h with h'
        subst h'
        have hmem : reg ∈ s.registrations := List.mem_of_find?_eq_some heq
        have hint : reg.status = "interested" := by
          rcases hst reg hmem with h1 | h1 | h1
          · exact h1
          · rw [h1] at hr; simp at hr
          · rw [h1] at hc; simp at hc
        simp only [findRegistration] at heq
        obtain ⟨l1, l2, hl, hu, -⟩ :=
          updateFirst_split heq
            (fun r => { r with
              status := "registered", attendees := p.attendees,
              number_of_attendees := p.number_of_attendees })
        have hactOld : isActive reg = true := by simp [isActive, hint]
        have hactNew : isActive { reg with
            status := "registered", attendees := p.attendees,
            number_of_attendees := p.number_of_attendees } = true := by
          simp [isActive]
        refine ⟨?_, ?_, ?_⟩
        · show s.event.attendees_count - reg.number_of_attendees
              + p.number_of_attendees = activeSum _
          rw [hu, activeSum_append, activeSum_cons, hactNew]
          rw [counterInvariant, hl, activeSum_append, activeSum_cons, hactOld] at hinv
          simp only [if_true] at hinv ⊢
          omega
        · intro r hrr
          rw [hu] at hrr
          rcases List.mem_append.1 hrr with h1 | h2
          · exact hpos r (by rw [hl]; exact List.mem_append_left _ h1)
          · rcases List.mem_cons.1 h2 with rfl | h3
            · exact hn
            · exact hpos r (by rw [hl]; simp [h3])
        · intro r hrr
          rw [hu] at hrr
          rcases List.mem_append.1 hrr with h1 | h2
          · exact hst r (by rw [hl]; exact List.mem_append_left _ h1)
          · rcases List.mem_cons.1 h2 with rfl | h3
            · exact Or.inr (Or.inl rfl)
            · exact hst r (by rw [hl]; simp [h3])

theorem wf_register {now : Int} {u : Nat} {p : EventRegistrationCreate}
    {s s' : EventState} (hwf : wf s)
    (hg : goodOp (.registerDirect now u p) s = true)
    (h : register_for_event now u p s = .ok s') : wf s' := by
  obtain ⟨hinv, hpos, hst⟩ := hwf
  simp only [goodOp] at hg
  have hn := payloadAccepted_one_le hg
  simp only [register_for_event] at h
  split at h
  · simp at h
  split at h
  · simp at h
  split at h
  case h_1 => simp at h
  case h_2 heq =>
    injection h with h'
    subst h'
    refine ⟨?_, ?_, ?_⟩
    · show s.event.attendees_count + p.number_of_attendees = activeSum _
      rw [activeSum_append, activeSum_cons, activeSum_nil]
      have : isActive ⟨u, "registered", p.attendees, p.number_of_attendees⟩ = true := by
        simp [isActive]
      rw [this, counterInvariant] at *
      simp only [if_true]
      omega
    · intro r hr
      rcases List.mem_append.1 hr with h1 | h2
      · exact hpos r h1
      · simp at h2; subst h2; exact hn
    · intro r hr
      rcases List.mem_append.1 hr with h1 | h2
      · exact hst r h1
      · simp at h2; subst h2; exact Or.inr (Or.inl rfl)

theorem wf_cancel {u : Nat} {s s' : EventState} (hwf : wf s)
    (h : cancel_registration u s = .ok s') : wf s' := by
  obtain ⟨hinv, hpos, hst⟩ := hwf
  simp only [cancel_registration] at h
  split at h
  case h_1 => simp at h
  case h_2 reg heq =>
    split at h
    · simp at h
    case isFalse hc =>
      injection h with h'
      subst h'
      have hmem : reg ∈ s.registrations := List.mem_of_find?_eq_some heq
      have hactOld : isActive reg = true := by
        rcases hst reg hmem with h1 | h1 | h1 <;> simp [isActive, h1]
        rw [h1] at hc; simp at hc
      simp only [findRegistration] at heq
      obtain ⟨l1, l2, hl, hu, -⟩ :=
        updateFirst_split heq (fun r => { r with status := "cancelled" })
      have hactNew : isActive { reg with status := "cancelled" } = false := by
        simp [isActive]
      have hpos1 : ∀ r ∈ l1, 1 ≤ r.number_of_attendees :=
        fun r h1 => hpos r (by rw [hl]; exact List.mem_append_left _ h1)
      have hpos2 : ∀ r ∈ l2, 1 ≤ r.number_of_attendees :=
        fun r h2 => hpos r (by rw [hl]; simp [h2])
      have hnn : (0 : Int) ≤ activeSum l1 + activeSum l2 :=
        add_nonneg (activeSum_nonneg hpos1) (activeSum_nonneg hpos2)
      refine ⟨?_, ?_, ?_⟩
      · show max 0 (s.event.attendees_count - reg.number_of_attendees) = activeSum _
        rw [hu, activeSum_append, activeSum_cons, hactNew]
        rw [counterInvariant, hl, activeSum_append, activeSum_cons, hactOld] at hinv
        simp at hinv ⊢
        have hd : s.event.attendees_count - reg.number_of_attendees
            = activeSum l1 + activeSum l2 := by omega
        rw [hd, max_eq_right hnn]
      · intro r hrr
        rw [hu] at hrr
        rcases List.mem_append.1 hrr with h1 | h2
        · exact hpos r (by rw [hl]; exact List.mem_append_left _ h1)
        · rcases List.mem_cons.1 h2 with rfl | h3
          · exact hpos reg hmem
          · exact hpos r (by rw [hl]; simp [h3])
      · intro r hrr
        rw [hu] at hrr
        rcases List.mem_append.1 hrr with h1 | h2
        · exact hst r (by rw [hl]; exact List.mem_append_left _ h1)
        · rcases List.mem_cons.1 h2 with rfl | h3
          · exact Or.inr (Or.inr rfl)
          · exact hst r (by rw [hl]; simp [h3])

/-- One well-behaved call preserves well-formedness (errors roll back). -/
theorem wf_applyOp {op : Op} {s : EventState} (hwf : wf s)
    (hg : goodOp op s = true) : wf (applyOp op s) := by
  cases op with
  | interest u un =>
      cases h : mark_interest u un s with
      | ok s' =>
          have : applyOp (.interest u un) s = s' := by simp [applyOp, stepOp, h]
          rw [this]; exact wf_mark_interest hwf hg h
      | error e =>
          have : applyOp (.interest u un) s = s := by simp [applyOp, stepOp, h]
          rw [this]; exact hwf
  | confirm now u p =>
      cases h : confirm_registration now u p s with
      | ok s' =>
          have : applyOp (.confirm now u p) s = s' := by simp [applyOp, stepOp, h]
          rw [this]; exact wf_confirm hwf hg h
      | error e =>
          have : applyOp (.confirm now u p) s = s := by simp [applyOp, stepOp, h]
          rw [this]; exact hwf
  | registerDirect now u p =>
      cases h : register_for_event now u p s with
      | ok s' =>
          have : applyOp (.registerDirect now u p) s = s' := by
            simp [applyOp, stepOp, h]
          rw [this]; exact wf_register hwf hg h
      | error e =>
          have : applyOp (.registerDirect now u p) s = s := by
            simp [applyOp, stepOp, h]
          rw [this]; exact hwf
  | cancel u =>
      cases h : cancel_registration u s with
      | ok s' =>
          have : applyOp (.cancel u) s = s' := by simp [applyOp, stepOp, h]
          rw [this]; exact wf_cancel hwf h
      | error e =>
          have : applyOp (.cancel u) s = s := by simp [applyOp, stepOp, h]
          rw [this]; exact hwf

/-- A whole run of well-behaved calls preserves well-formedness. -/
theorem wf_run {ops : List Op} {s : EventState} (hwf : wf s)
    (hg : runGood ops s = true) : wf (run ops s) := by
  induction ops generalizing s with
  | nil => exact hwf
  | cons op ops ih =>
      rw [runGood, Bool.and_eq_true] at hg
      exact ih (wf_applyOp hwf hg.1) hg.2

/-- An event with no registration rows and counter 0 is well-formed. -/
theorem wf_initial {ev : Event} (h0 : ev.attendees_count = 0) :
    wf ⟨ev, []⟩ := by
  refine ⟨h0, ?_, ?_⟩ <;> intro r hr <;> simp at hr

/-- How `mark_interest` reactivates a cancelled row: only the status changes
to `"interested"` and the counter gains 1; the attendee list and count of
the row are untouched and no row is added. -/
theorem mark_interest_reactivate (s : EventState) (u : Nat) (un : String)
    (r : Registration) (happ : s.event.is_approved = true)
    (hfind : findRegistration u s.registrations = some r)
    (hcanc : r.status = "cancelled") :
    ∃ s', mark_interest u un s = .ok s'
      ∧ findRegistration u s'.registrations = some { r with status := "interested" }
      ∧ s'.event.attendees_count = s.event.attendees_count + 1
      ∧ s'.registrations.length = s.registrations.length := by
  have hfind' : List.find? (fun x => x.user_id == u) s.registrations = some r := by
    simpa [findRegistration] using hfind
  have hp : (r.user_id == u) = true := by
    have h0 := List.find?_some hfind'
    exact h0
  have hstep : mark_interest u un s = .ok { s with
      registrations := updateFirst (fun x => x.user_id == u)
        (fun x => { x with status := "interested" }) s.registrations,
      event := { s.event with
        attendees_count := s.event.attendees_count + 1 } } := by
    simp only [mark_interest, happ]
    rw [hfind]
    simp [hcanc]
  refine ⟨_, hstep, ?_, rfl, ?_⟩
  · simp only [findRegistration]
    exact find?_updateFirst hfind' _ (by simpa using hp)
  · exact length_updateFirst _ _ _

/-- How `confirm_registration` updates an `"interested"` row: status becomes
`"registered"`, the attendee list and count are replaced by the request's,
the counter changes by (new count − old count), and no row is added. -/
theorem confirm_updates_interested (s : EventState) (now : Int) (u : Nat)
    (p : EventRegistrationCreate) (r : Registration)
    (h1 : s.event.registration_start - buffer_time ≤ now)
    (h2 : now ≤ s.event.registration_end + buffer_time)
    (hfind : findRegistration u s.registrations = some r)
    (hint : r.status = "interested") :
    ∃ s', confirm_registration now u p s = .ok s'
      ∧ findRegistration u s'.registrations = some { r with
          status := "registered", attendees := p.attendees,
          number_of_attendees := p.number_of_attendees }
      ∧ s'.event.attendees_count
          = s.event.attendees_count + (p.number_of_attendees - r.number_of_attendees)
      ∧ s'.registrations.length = s.registrations.length := by
  have hfind' : List.find? (fun x => x.user_id == u) s.registrations = some r := by
    simpa [findRegistration] using hfind
  have hp : (r.user_id == u) = true := by
    have h0 := List.find?_some hfind'
    exact h0
  have hw : (decide (now < s.event.registration_start - buffer_time)
      || decide (s.event.registration_end + buffer_time < now)) = false := by
    simp only [Bool.or_eq_false_iff, decide_eq_false_iff_not]
    omega
  have hstep : confirm_registration now u p s = .ok { s with
      registrations := updateFirst (fun x => x.user_id == u)
        (fun x => { x with
          status := "registered", attendees := p.attendees,
          number_of_attendees := p.number_of_attendees }) s.registrations,
      event := { s.event with
        attendees_count := s.event.attendees_count
          - r.number_of_attendees + p.number_of_attendees } } := by
    simp only [confirm_registration, hw]
    rw [hfind]
    simp [hint]
  refine ⟨_, hstep, ?_, ?_, ?_⟩
  · simp only [findRegistration]
    exact find?_updateFirst hfind' _ (by simpa using hp)
  · show s.event.attendees_count - r.number_of_attendees + p.number_of_attendees = _
    omega
  · exact length_updateFirst _ _ _

/-! ### Claims -/

/-- C1: the claim is false as stated.  After the sequence markInterest,
confirmRegistration with 3 attendees, cancelRegistration, markInterest on
one (event, user) pair starting from an event with no registrations, the
event's `attendees_count` is 1 while the sum of `number_of_attendees` over
the `"interested"`/`"registered"` registrations is 3: reactivation adds 1
to the counter but leaves the row's stored count at 3. -/
theorem C1_counterexample :
    (run opsReactivate emptyState).event.attendees_count = 1
    ∧ activeSum (run opsReactivate emptyState).registrations = 3
    ∧ ¬ counterInvariant (run opsReactivate emptyState) := by
  refine ⟨rfl, rfl, ?_⟩
  rw [counterInvariant]
  decide

/-- C1 (amended): starting from an event with counter 0 and no
registrations, after every sequence of markInterest, confirmRegistration,
registerDirect and cancelRegistration calls in which every markInterest
that reactivates a cancelled registration finds it with stored count 1 and
every confirm/register request body passes validation, the event's
`attendees_count` equals the sum of `number_of_attendees` over the
registrations whose status is `"interested"` or `"registered"`. -/
theorem C1_invariant_under_side_condition (ev : Event) (ops : List Op)
    (h0 : ev.attendees_count = 0)
    (hg : runGood ops ⟨ev, []⟩ = true) :
    counterInvariant (run ops ⟨ev, []⟩) :=
  (wf_run (wf_initial h0) hg).1

/-- Witness for C1's amended theorem: the scenario of spec §8 (markInterest,
confirm with 2 attendees, cancel) satisfies the side condition and ends
with the counter equal to the active sum. -/
theorem C1_witness :
    runGood [.interest 1 "alice", .confirm 100 1 ⟨2, ["Ann", "Bob"]⟩, .cancel 1]
      ⟨approvedEvent, []⟩ = true
    ∧ counterInvariant
        (run [.interest 1 "alice", .confirm 100 1 ⟨2, ["Ann", "Bob"]⟩, .cancel 1]
          ⟨approvedEvent, []⟩) :=
  ⟨by decide, C1_invariant_under_side_condition approvedEvent
    [.interest 1 "alice", .confirm 100 1 ⟨2, ["Ann", "Bob"]⟩, .cancel 1]
    rfl (by decide)⟩

/-- C2: the claim is false as stated.  Reactivating the cancelled
registration of user 1 (attendee list `["Ann", "Bob", "Cyd"]`, count 3)
leaves the list and count untouched: the row does not become
(`[user]`, 1). -/
theorem C2_counterexample :
    mark_interest 1 "alice" ⟨approvedEvent, [⟨1, "cancelled", ["Ann", "Bob", "Cyd"], 3⟩]⟩
      = .ok ⟨⟨true, 0, 1000000, 1⟩, [⟨1, "interested", ["Ann", "Bob", "Cyd"], 3⟩]⟩
    ∧ (3 : Int) ≠ 1
    ∧ (["Ann", "Bob", "Cyd"] : List String) ≠ ["alice"] :=
  ⟨rfl, by decide, by decide⟩

/-- C2 (amended): reactivation sets the status to `"interested"` and adds
exactly 1 to the event's counter, leaving the row's attendee list and count
unchanged and creating no second row; in particular after markInterest,
cancel, markInterest the counter is back to 1 and a single row exists. -/
theorem C2_reactivation :
    (∀ (s : EventState) (u : Nat) (un : String) (r : Registration),
      s.event.is_approved = true →
      findRegistration u s.registrations = some r →
      r.status = "cancelled" →
      ∃ s', mark_interest u un s = .ok s'
        ∧ findRegistration u s'.registrations
            = some { r with status := "interested" }
        ∧ s'.event.attendees_count = s.event.attendees_count + 1
        ∧ s'.registrations.length = s.registrations.length)
    ∧ run [.interest 1 "alice", .cancel 1, .interest 1 "alice"] emptyState
        = ⟨⟨true, 0, 1000000, 1⟩, [⟨1, "interested", ["alice"], 1⟩]⟩ :=
  ⟨fun s u un r happ hfind hcanc =>
    mark_interest_reactivate s u un r happ hfind hcanc, rfl⟩

/-- Witness for C2's amended theorem at a concrete cancelled row. -/
theorem C2_witness :
    ∃ s', mark_interest 1 "bob"
        ⟨approvedEvent, [⟨1, "cancelled", ["alice"], 1⟩]⟩ = .ok s'
      ∧ findRegistration 1 s'.registrations
          = some ⟨1, "interested", ["alice"], 1⟩
      ∧ s'.event.attendees_count
          = (⟨approvedEvent, [⟨1, "cancelled", ["alice"], 1⟩]⟩ :
              EventState).event.attendees_count + 1
      ∧ s'.registrations.length
          = (⟨approvedEvent, [⟨1, "cancelled", ["alice"], 1⟩]⟩ :
              EventState).registrations.length :=
  C2_reactivation.1 ⟨approvedEvent, [⟨1, "cancelled", ["alice"], 1⟩]⟩ 1 "bob"
    ⟨1, "cancelled", ["alice"], 1⟩ rfl rfl rfl

/-- C7: the claim is false as stated.  Extending the reactivation sequence
with a confirm of count 1 drives the counter to −1: the confirm subtracts
the stale stored count 3 and adds 1. -/
theorem C7_counterexample :
    (run (opsReactivate ++ [.confirm 200 1 ⟨1, ["Ann"]⟩]) emptyState).event.attendees_count = -1
    ∧ (run (opsReactivate ++ [.confirm 200 1 ⟨1, ["Ann"]⟩]) emptyState).event.attendees_count < 0 :=
  ⟨rfl, by decide⟩

/-- C7 (amended): starting from an event with counter 0 and no
registrations, after every sequence of the four calls in which every
markInterest reactivation finds a stored count of 1 and every
confirm/register request body passes validation, the counter stays
non-negative. -/
theorem C7_nonneg_under_side_condition (ev : Event) (ops : List Op)
    (h0 : ev.attendees_count = 0)
    (hg : runGood ops ⟨ev, []⟩ = true) :
    0 ≤ (run ops ⟨ev, []⟩).event.attendees_count := by
  have hwf := wf_run (wf_initial h0) hg
  rw [hwf.1]
  exact activeSum_nonneg hwf.2.1

/-- Witness for C7's amended theorem on a concrete well-behaved run. -/
theorem C7_witness :
    runGood [.registerDirect 50 2 ⟨4, ["Ann", "Bob", "Cyd", "Dee"]⟩, .cancel 2]
      ⟨approvedEvent, []⟩ = true
    ∧ 0 ≤ (run [.registerDirect 50 2 ⟨4, ["Ann", "Bob", "Cyd", "Dee"]⟩, .cancel 2]
        ⟨approvedEvent, []⟩).event.attendees_count :=
  ⟨by decide, C7_nonneg_under_side_condition approvedEvent
    [.registerDirect 50 2 ⟨4, ["Ann", "Bob", "Cyd", "Dee"]⟩, .cancel 2]
    rfl (by decide)⟩

/-- C3: a successful `confirm_registration` on an `"interested"` row sets the
status to `"registered"`, replaces the attendee list and count with the
request's, and changes the counter by exactly (new count − previous count);
concretely, markInterest (counter 1) then confirm with 3 names yields
counter 3 (a delta of +2, not +3). -/
theorem C3_confirm_delta :
    (∀ (s : EventState) (now : Int) (u : Nat) (p : EventRegistrationCreate)
        (r : Registration),
      s.event.registration_start - buffer_time ≤ now →
      now ≤ s.event.registration_end + buffer_time →
      findRegistration u s.registrations = some r →
      r.status = "interested" →
      ∃ s', confirm_registration now u p s = .ok s'
        ∧ findRegistration u s'.registrations = some { r with
            status := "registered", attendees := p.attendees,
            number_of_attendees := p.number_of_attendees }
        ∧ s'.event.attendees_count
            = s.event.attendees_count + (p.number_of_attendees - r.number_of_attendees)
        ∧ s'.registrations.length = s.registrations.length)
    ∧ (run [.interest 1 "alice"] emptyState).event.attendees_count = 1
    ∧ (run [.interest 1 "alice", .confirm 100 1 ⟨3, ["Ann", "Bob", "Cyd"]⟩]
        emptyState).event.attendees_count = 3 :=
  ⟨fun s now u p r h1 h2 hf hi => confirm_updates_interested s now u p r h1 h2 hf hi,
    rfl, rfl⟩

/-- Witness for C3 at a concrete `"interested"` row. -/
theorem C3_witness :
    ∃ s', confirm_registration 100 1 ⟨3, ["Ann", "Bob", "Cyd"]⟩
        ⟨⟨true, 0, 1000000, 1⟩, [⟨1, "interested", ["alice"], 1⟩]⟩ = .ok s'
      ∧ findRegistration 1 s'.registrations
          = some ⟨1, "registered", ["Ann", "Bob", "Cyd"], 3⟩
      ∧ s'.event.attendees_count = 1 + (3 - 1)
      ∧ s'.registrations.length = 1 :=
  C3_confirm_delta.1 ⟨⟨true, 0, 1000000, 1⟩, [⟨1, "interested", ["alice"], 1⟩]⟩
    100 1 ⟨3, ["Ann", "Bob", "Cyd"]⟩ ⟨1, "interested", ["alice"], 1⟩
    (by decide) (by decide) rfl rfl

/-- C4: the claim is false as stated.  For a user whose only registration is
`"cancelled"`, `register_for_event` *does* fail with the conflict error
(the code checks for any existing row, not only active ones), even with the
event approved, the time inside the unbuffered window and a valid body. -/
theorem C4_counterexample :
    register_for_event 100 1 ⟨2, ["Ann", "Bob"]⟩
        ⟨approvedEvent, [⟨1, "cancelled", ["alice"], 1⟩]⟩
      = .error (.badRequest "You are already registered for this event")
    ∧ payloadAccepted ⟨2, ["Ann", "Bob"]⟩ = true
    ∧ approvedEvent.registration_start ≤ 100
    ∧ (100 : Int) ≤ approvedEvent.registration_end :=
  ⟨rfl, by decide, by decide, by decide⟩

/-- C4 (amended): given an approved event and a time inside the unbuffered
window, `register_for_event` fails with Conflict exactly when *any*
registration row exists for the pair, cancelled ones included; when no row
at all exists it creates a fresh `"registered"` row and adds the full count
to the counter. -/
theorem C4_conflict_on_any_row (s : EventState) (now : Int) (u : Nat)
    (p : EventRegistrationCreate)
    (happ : s.event.is_approved = true)
    (h1 : s.event.registration_start ≤ now) (h2 : now ≤ s.event.registration_end) :
    (∀ r, findRegistration u s.registrations = some r →
      register_for_event now u p s
        = .error (.badRequest "You are already registered for this event"))
    ∧ (findRegistration u s.registrations = none →
      ∃ s', register_for_event now u p s = .ok s'
        ∧ findRegistration u s'.registrations
            = some ⟨u, "registered", p.attendees, p.number_of_attendees⟩
        ∧ s'.event.attendees_count = s.event.attendees_count + p.number_of_attendees
        ∧ s'.registrations.length = s.registrations.length + 1) := by
  have hw : (decide (now < s.event.registration_start)
      || decide (s.event.registration_end < now)) = false := by
    simp only [Bool.or_eq_false_iff, decide_eq_false_iff_not]
    omega
  constructor
  · intro r hr
    simp [register_for_event, happ, hw, hr]
  · intro hnone
    have hnone' : List.find? (fun x => x.user_id == u) s.registrations = none := by
      simpa [findRegistration] using hnone
    refine ⟨{ s with
        registrations := s.registrations ++
          [⟨u, "registered", p.attendees, p.number_of_attendees⟩],
        event := { s.event with
          attendees_count := s.event.attendees_count + p.number_of_attendees } },
      ?_, ?_, rfl, ?_⟩
    · simp [register_for_event, happ, hw, hnone]
    · simp only [findRegistration]
      rw [find?_append_of_none hnone']
      simp [List.find?]
    · simp

/-- Witness for C4's amended theorem: a cancelled row conflicts, no row
registers fresh. -/
theorem C4_witness :
    register_for_event 200 1 ⟨2, ["Ann", "Bob"]⟩
        ⟨approvedEvent, [⟨1, "cancelled", ["alice"], 1⟩]⟩
      = .error (.badRequest "You are already registered for this event")
    ∧ ∃ s', register_for_event 200 2 ⟨2, ["Ann", "Bob"]⟩ ⟨approvedEvent, []⟩
          = .ok s'
        ∧ findRegistration 2 s'.registrations
            = some ⟨2, "registered", ["Ann", "Bob"], 2⟩
        ∧ s'.event.attendees_count = 0 + 2
        ∧ s'.registrations.length = 0 + 1 :=
  ⟨(C4_conflict_on_any_row ⟨approvedEvent, [⟨1, "cancelled", ["alice"], 1⟩]⟩
      200 1 ⟨2, ["Ann", "Bob"]⟩ rfl (by decide) (by decide)).1
      ⟨1, "cancelled", ["alice"], 1⟩ rfl,
   (C4_conflict_on_any_row ⟨approvedEvent, []⟩ 200 2 ⟨2, ["Ann", "Bob"]⟩
      rfl (by decide) (by decide)).2 rfl⟩

/-- C5: the claim is false as stated.  At time 96400, inside the buffered
window `[100000 − 86400, 200000 + 86400]` of the event but before the
unbuffered `registration_start`, `register_for_event` fails with the
window error even for an approved event, valid body and fresh user. -/
theorem C5_counterexample :
    register_for_event 96400 1 ⟨1, ["Ann"]⟩ ⟨⟨true, 100000, 200000, 0⟩, []⟩
      = .error (.badRequest "Registration is not open for this event")
    ∧ (100000 : Int) - buffer_time ≤ 96400
    ∧ (96400 : Int) ≤ 200000 + buffer_time
    ∧ payloadAccepted ⟨1, ["Ann"]⟩ = true :=
  ⟨rfl, by decide, by decide, by decide⟩

/-- C5 (amended): `register_for_event` validates the *unbuffered* window:
for an approved event and a user with no registration row it succeeds
exactly when `registration_start ≤ now ≤ registration_end`, and fails with
the window error when `now` lies outside; the 24-hour buffer belongs to
`confirm_registration` only. -/
theorem C5_strict_window (s : EventState) (now : Int) (u : Nat)
    (p : EventRegistrationCreate)
    (happ : s.event.is_approved = true)
    (hnone : findRegistration u s.registrations = none) :
    (s.event.registration_start ≤ now → now ≤ s.event.registration_end →
      ∃ s', register_for_event now u p s = .ok s')
    ∧ (now < s.event.registration_start ∨ s.event.registration_end < now →
      register_for_event now u p s
        = .error (.badRequest "Registration is not open for this event")) := by
  constructor
  · intro h1 h2
    have hw : (decide (now < s.event.registration_start)
        || decide (s.event.registration_end < now)) = false := by
      simp only [Bool.or_eq_false_iff, decide_eq_false_iff_not]
      omega
    exact ⟨{ s with
      registrations := s.registrations ++
        [⟨u, "registered", p.attendees, p.number_of_attendees⟩],
      event := { s.event with
        attendees_count := s.event.attendees_count + p.number_of_attendees } },
      by simp [register_for_event, happ, hw, hnone]⟩
  · intro hout
    have hw : (decide (now < s.event.registration_start)
        || decide (s.event.registration_end < now)) = true := by
      rcases hout with h | h <;> simp [h]
    simp [register_for_event, happ, hw]

/-- Witness for C5's amended theorem: success strictly inside the window,
window error after `registration_end`. -/
theorem C5_witness :
    (∃ s', register_for_event 150000 1 ⟨1, ["Ann"]⟩
        ⟨⟨true, 100000, 200000, 0⟩, []⟩ = .ok s')
    ∧ register_for_event 250000 1 ⟨1, ["Ann"]⟩ ⟨⟨true, 100000, 200000, 0⟩, []⟩
        = .error (.badRequest "Registration is not open for this event") :=
  ⟨(C5_strict_window ⟨⟨true, 100000, 200000, 0⟩, []⟩ 150000 1 ⟨1, ["Ann"]⟩
      rfl rfl).1 (by decide) (by decide),
   (C5_strict_window ⟨⟨true, 100000, 200000, 0⟩, []⟩ 250000 1 ⟨1, ["Ann"]⟩
      rfl rfl).2 (Or.inr (by decide))⟩

/-- C6: `cancel_registration` fails with 404 when no row exists or the row
is already `"cancelled"` (errors roll the transaction back, so state is
unchanged); on success it flips the row to `"cancelled"`, floors the
counter subtraction at 0, and keeps the row (same number of rows). -/
theorem C6_cancel_behavior (s : EventState) (u : Nat) :
    (findRegistration u s.registrations = none →
      cancel_registration u s = .error (.notFound "Registration not found"))
    ∧ (∀ r, findRegistration u s.registrations = some r → r.status = "cancelled" →
      cancel_registration u s = .error (.notFound "Registration not found"))
    ∧ (∀ r, findRegistration u s.registrations = some r → r.status ≠ "cancelled" →
      ∃ s', cancel_registration u s = .ok s'
        ∧ findRegistration u s'.registrations = some { r with status := "cancelled" }
        ∧ s'.event.attendees_count
            = max 0 (s.event.attendees_count - r.number_of_attendees)
        ∧ s'.registrations.length = s.registrations.length) := by
  refine ⟨?_, ?_, ?_⟩
  · intro h
    simp [cancel_registration, h]
  · intro r hr hc
    simp [cancel_registration, hr, hc]
  · intro r hr hc
    have hfind' : List.find? (fun x => x.user_id == u) s.registrations = some r := by
      simpa [findRegistration] using hr
    have hp : (r.user_id == u) = true := by
      have h0 := List.find?_some hfind'
      exact h0
    refine ⟨{ s with
        registrations := updateFirst (fun x => x.user_id == u)
          (fun x => { x with status := "cancelled" }) s.registrations,
        event := { s.event with
          attendees_count :=
            max 0 (s.event.attendees_count - r.number_of_attendees) } },
      ?_, ?_, rfl, ?_⟩
    · simp [cancel_registration, hr, hc]
    · simp only [findRegistration]
      exact find?_updateFirst hfind' _ (by simpa using hp)
    · exact length_updateFirst _ _ _

/-- Witness for C6 at concrete states: missing row, already-cancelled row,
and a successful cancellation of a `"registered"` row with count 3. -/
theorem C6_witness :
    cancel_registration 1 emptyState = .error (.notFound "Registration not found")
    ∧ cancel_registration 1 ⟨approvedEvent, [⟨1, "cancelled", ["alice"], 1⟩]⟩
        = .error (.notFound "Registration not found")
    ∧ ∃ s', cancel_registration 1
          ⟨⟨true, 0, 1000000, 3⟩, [⟨1, "registered", ["Ann", "Bob", "Cyd"], 3⟩]⟩
          = .ok s'
        ∧ findRegistration 1 s'.registrations
            = some ⟨1, "cancelled", ["Ann", "Bob", "Cyd"], 3⟩
        ∧ s'.event.attendees_count = max 0 (3 - 3)
        ∧ s'.registrations.length = 1 :=
  ⟨(C6_cancel_behavior emptyState 1).1 rfl,
   (C6_cancel_behavior ⟨approvedEvent, [⟨1, "cancelled", ["alice"], 1⟩]⟩ 1).2.1
     ⟨1, "cancelled", ["alice"], 1⟩ rfl rfl,
   (C6_cancel_behavior
       ⟨⟨true, 0, 1000000, 3⟩, [⟨1, "registered", ["Ann", "Bob", "Cyd"], 3⟩]⟩ 1).2.2
     ⟨1, "registered", ["Ann", "Bob", "Cyd"], 3⟩ rfl (by decide)⟩

/-- C8: the mismatch check of `validate_number_of_attendees` is dead code.
Pydantic validates fields in declaration order and `number_of_attendees`
is declared before `attendees`, so `"attendees" in values` is always false
when its validator runs: a body with count 5 but one attendee name is
accepted, as is one with count 50 (outside 1..10); had `values` contained
`attendees`, the validator itself would have rejected the mismatch. -/
theorem C8_dead_mismatch_check :
    payloadAccepted ⟨5, ["Alice"]⟩ = true
    ∧ ((["Alice"] : List String).length : Int) ≠ 5
    ∧ payloadAccepted ⟨50, ["Alice"]⟩ = true
    ∧ ¬ ((50 : Int) ≤ 10)
    ∧ validate_number_of_attendees 5 true (["Alice"] : List String).length = false :=
  ⟨by decide, by decide, by decide, by decide, by decide⟩

/-- C9: `confirm_registration` never reads the approval flag: on an
unapproved event with an `"interested"` row it succeeds inside the
buffered window, while `mark_interest` and `register_for_event` both
reject the unapproved event outright. -/
theorem C9_confirm_ignores_approval (s : EventState) (now : Int) (u : Nat)
    (un : String) (p : EventRegistrationCreate) (r : Registration)
    (happ : s.event.is_approved = false)
    (h1 : s.event.registration_start - buffer_time ≤ now)
    (h2 : now ≤ s.event.registration_end + buffer_time)
    (hfind : findRegistration u s.registrations = some r)
    (hint : r.status = "interested") :
    (∃ s', confirm_registration now u p s = .ok s')
    ∧ mark_interest u un s
        = .error (.badRequest "Cannot show interest in an unapproved event")
    ∧ register_for_event now u p s
        = .error (.badRequest "Cannot register for an unapproved event") := by
  refine ⟨?_, ?_, ?_⟩
  · obtain ⟨s', hs', -, -, -⟩ :=
      confirm_updates_interested s now u p r h1 h2 hfind hint
    exact ⟨s', hs'⟩
  · simp [mark_interest, happ]
  · simp [register_for_event, happ]

/-- Witness for C9 on a concrete unapproved event holding an interested
row. -/
theorem C9_witness :
    (∃ s', confirm_registration 100 1 ⟨2, ["Ann", "Bob"]⟩
        ⟨⟨false, 0, 1000000, 1⟩, [⟨1, "interested", ["alice"], 1⟩]⟩ = .ok s')
    ∧ mark_interest 1 "bob" ⟨⟨false, 0, 1000000, 1⟩, [⟨1, "interested", ["alice"], 1⟩]⟩
        = .error (.badRequest "Cannot show interest in an unapproved event")
    ∧ register_for_event 100 1 ⟨2, ["Ann", "Bob"]⟩
        ⟨⟨false, 0, 1000000, 1⟩, [⟨1, "interested", ["alice"], 1⟩]⟩
        = .error (.badRequest "Cannot register for an unapproved event") :=
  C9_confirm_ignores_approval
    ⟨⟨false, 0, 1000000, 1⟩, [⟨1, "interested", ["alice"], 1⟩]⟩ 100 1 "bob"
    ⟨2, ["Ann", "Bob"]⟩ ⟨1, "interested", ["alice"], 1⟩
    rfl (by decide) (by decide) rfl rfl

/-- C10: the two read endpoints disagree on cancelled rows.
`get_registration_status` answers `("none", no data)` when the row is
absent or cancelled, while the `is_registered` flag of `get_event_details`
is true whenever any row exists, a cancelled one included; for a present,
non-cancelled row the status endpoint returns the row's data. -/
theorem C10_read_endpoints (s : EventState) (u : Nat) :
    (findRegistration u s.registrations = none →
      get_registration_status u s = ("none", none)
        ∧ details_is_registered u s = false)
    ∧ (∀ r, findRegistration u s.registrations = some r → r.status = "cancelled" →
      get_registration_status u s = ("none", none)
        ∧ details_is_registered u s = true)
    ∧ (∀ r, findRegistration u s.registrations = some r → r.status ≠ "cancelled" →
      get_registration_status u s
        = (r.status, some (r.attendees, r.number_of_attendees))) := by
  refine ⟨fun h => ⟨?_, ?_⟩, fun r hr hc => ⟨?_, ?_⟩, fun r hr hc => ?_⟩
  · simp [get_registration_status, h]
  · simp [details_is_registered, h]
  · simp [get_registration_status, hr, hc]
  · simp [details_is_registered, hr]
  · simp [get_registration_status, hr, hc]

/-- Witness for C10: a cancelled row yields status `"none"` yet
`is_registered = true`; a registered row is reported with its data. -/
theorem C10_witness :
    (get_registration_status 1 ⟨approvedEvent, [⟨1, "cancelled", ["alice"], 1⟩]⟩
        = ("none", none)
      ∧ details_is_registered 1 ⟨approvedEvent, [⟨1, "cancelled", ["alice"], 1⟩]⟩
        = true)
    ∧ get_registration_status 2 ⟨approvedEvent, [⟨2, "registered", ["Bo"], 1⟩]⟩
        = ("registered", some (["Bo"], 1)) :=
  ⟨(C10_read_endpoints ⟨approvedEvent, [⟨1, "cancelled", ["alice"], 1⟩]⟩ 1).2.1
      ⟨1, "cancelled", ["alice"], 1⟩ rfl rfl,
   (C10_read_endpoints ⟨approvedEvent, [⟨2, "registered", ["Bo"], 1⟩]⟩ 2).2.2
      ⟨2, "registered", ["Bo"], 1⟩ rfl (by decide)⟩

end CommunityPulse
